import Mathlib

/-!
Verification of the mock line-survival prediction server
(src/mock-line-survival-server.py): a shallow embedding of the request
handler LineSurvivalHandler and proofs about its behaviour.
-/

/-- JSON values as produced by json.loads. Objects stand for the parsed
Python dict, so duplicate keys have already been collapsed and field order
is dict insertion order. -/
inductive Json where
  | null
  | bool (b : Bool)
  | num (q : ℚ)
  | str (s : String)
  | arr (items : List Json)
  | obj (fields : List (String × Json))

/-- Response bodies: nothing written, a JSON document, or the HTML error
page produced by send_error in the base handler. -/
inductive Body where
  | empty
  | jsonBody (j : Json)
  | htmlBody (s : String)

/-- An HTTP response: status code, the headers the handler sets explicitly
with send_header, and the body written to the socket. -/
structure HttpResponse where
  status : ℕ
  headers : List (String × String)
  body : Body

/-- Whitespace characters stripped by the Python str.strip method
(ASCII range: tab, newline, vertical tab, form feed, carriage return,
space). -/
def isPySpace (c : Char) : Bool :=
  c = Char.ofNat 32 || c = Char.ofNat 9 || c = Char.ofNat 10 ||
  c = Char.ofNat 11 || c = Char.ofNat 12 || c = Char.ofNat 13

/-- Python str.strip with no argument: drop whitespace from both ends. -/
def pyStrip (l : List Char) : List Char :=
  ((l.dropWhile isPySpace).reverse.dropWhile isPySpace).reverse

/-- Python str.startswith: the second list is an initial segment of the
first. -/
def pyStartsWith : List Char → List Char → Bool
  | _, [] => true
  | [], _ :: _ => false
  | c :: cs, d :: ds => c = d && pyStartsWith cs ds

/-- Python substring membership test (the in operator on str): the second
list occurs contiguously in the first. -/
def pyContains : List Char → List Char → Bool
  | [], sub => pyStartsWith [] sub
  | l :: t, sub => pyStartsWith (l :: t) sub || pyContains t sub

/-- Condition of the first branch: not line.strip() (line empty or
whitespace only). -/
def isEmptyLine (line : String) : Bool :=
  (pyStrip line.data).isEmpty

/-- Condition of the second branch: the stripped line starts with // or
with #. -/
def isCommentLine (line : String) : Bool :=
  pyStartsWith (pyStrip line.data) "//".data ||
  pyStartsWith (pyStrip line.data) "#".data

/-- Condition of the third branch: line contains import or from. -/
def isImportLine (line : String) : Bool :=
  pyContains line.data "import".data || pyContains line.data "from".data

/-- Condition of the fourth branch: line contains function, def followed by
a space, or class followed by a space. -/
def isDefLine (line : String) : Bool :=
  pyContains line.data "function".data || pyContains line.data "def ".data ||
  pyContains line.data "class ".data

/-- The interval (a, b) passed to random.uniform for a given line: the
if/elif chain of do_POST, top to bottom. -/
def classify (line : String) : ℚ × ℚ :=
  if isEmptyLine line then (1/10, 3/10)
  else if isCommentLine line then (2/10, 5/10)
  else if isImportLine line then (7/10, 9/10)
  else if isDefLine line then (6/10, 8/10)
  else (3/10, 7/10)

/-- random.uniform a b with the underlying draw r of random.random, which
lies in the interval from 0 inclusive to 1 exclusive:
uniform(a, b) = a + (b - a) * random(). -/
def pyUniform (a b r : ℚ) : ℚ := a + (b - a) * r

/-- Round to the nearest integer, ties to the even integer, as the Python
built-in round does. -/
def roundHalfEven (q : ℚ) : ℤ :=
  if q - ⌊q⌋ < 1/2 then ⌊q⌋
  else if q - ⌊q⌋ > 1/2 then ⌊q⌋ + 1
  else if ⌊q⌋ % 2 = 0 then ⌊q⌋ else ⌊q⌋ + 1

/-- Python round(q, 3). -/
def pyRound3 (q : ℚ) : ℚ := (roundHalfEven (q * 1000) : ℚ) / 1000

/-- Score of one line given the draw r of random.random for it:
round(random.uniform(a, b), 3) with (a, b) from the classification. -/
def scoreLine (line : String) (r : ℚ) : ℚ :=
  pyRound3 (pyUniform (classify line).1 (classify line).2 r)

/-- The probabilities list built by the loop of do_POST; rng i is the draw
of random.random consumed for the i-th line. -/
def scoreAll (ls : List String) (rng : ℕ → ℚ) : List ℚ :=
  match ls with
  | [] => []
  | l :: rest => scoreLine l (rng 0) :: scoreAll rest (fun i => rng (i + 1))

/-- Effect of calling the strip method on one element of the lines value:
a string succeeds, every other Python value raises AttributeError, which the
catch-all except turns into the error response. -/
def asLineString : Json → Except String String
  | .str s => .ok s
  | .null => .error "AttributeError: NoneType object has no attribute strip"
  | .bool _ => .error "AttributeError: bool object has no attribute strip"
  | .num _ => .error "AttributeError: number object has no attribute strip"
  | .arr _ => .error "AttributeError: list object has no attribute strip"
  | .obj _ => .error "AttributeError: dict object has no attribute strip"

/-- Run the loop body check over a parsed JSON array: the first element on
which strip raises aborts the whole loop with that error. -/
def collectLines : List Json → Except String (List String)
  | [] => .ok []
  | j :: rest =>
    match asLineString j with
    | .error m => .error m
    | .ok s =>
      match collectLines rest with
      | .error m => .error m
      | .ok ss => .ok (s :: ss)

/-- Iterating for line in lines over the value bound to the key lines: an
array yields its elements (each must be a string), a string yields its
characters as one-character strings, a dict yields its keys, and the
remaining values are not iterable and raise TypeError. -/
def iterLines : Json → Except String (List String)
  | .arr items => collectLines items
  | .str s => .ok (s.data.map (fun c => String.mk [c]))
  | .obj fields => .ok (fields.map (fun kv => kv.1))
  | .null => .error "TypeError: NoneType object is not iterable"
  | .bool _ => .error "TypeError: bool object is not iterable"
  | .num _ => .error "TypeError: number object is not iterable"

/-- The body of the try block of do_POST after json.loads: parsed is the
result of json.loads (none when the body is not valid JSON, in which case
json.loads raises), then request_data.get with default the empty list, then
the scoring loop. A non-dict top-level value makes the get attribute lookup
raise AttributeError. -/
def processPredict (parsed : Option Json) (rng : ℕ → ℚ) : Except String (List ℚ) :=
  match parsed with
  | none => .error "JSONDecodeError: Expecting value"
  | some (.obj fields) =>
    match iterLines ((fields.lookup "lines").getD (.arr [])) with
    | .error m => .error m
    | .ok ls => .ok (scoreAll ls rng)
  | some _ => .error "AttributeError: object has no attribute get"

/-- The three CORS headers sent on success and on OPTIONS. -/
def corsHeaders : List (String × String) :=
  [("Access-Control-Allow-Origin", "*"),
   ("Access-Control-Allow-Methods", "POST, OPTIONS"),
   ("Access-Control-Allow-Headers", "Content-Type")]

/-- The do_POST method of LineSurvivalHandler: on path /predict run the try
block and answer 200 with the probabilities or 500 with the exception
message; on any other path answer 404 with no headers and no body. -/
def doPOST (path : String) (parsed : Option Json) (rng : ℕ → ℚ) : HttpResponse :=
  if path = "/predict" then
    match processPredict parsed rng with
    | .ok ps =>
      ⟨200, ("Content-Type", "application/json") :: corsHeaders,
        .jsonBody (.obj [("probabilities", .arr (ps.map Json.num))])⟩
    | .error m =>
      ⟨500, [("Content-Type", "application/json")],
        .jsonBody (.obj [("error", .str m)])⟩
  else ⟨404, [], .empty⟩

/-- The do_OPTIONS method of LineSurvivalHandler: 200 with the CORS headers
and an empty body, for every path. -/
def doOPTIONS (_path : String) : HttpResponse :=
  ⟨200, corsHeaders, .empty⟩

/-- Request dispatch of http.server.BaseHTTPRequestHandler, which
LineSurvivalHandler subclasses: the request method selects the matching
do_METHOD handler; for a method with no handler defined (anything other
than POST and OPTIONS here) the base class calls send_error with status 501
Unsupported method and an HTML error page body. -/
def handleRequest (method path : String) (parsed : Option Json) (rng : ℕ → ℚ) : HttpResponse :=
  if method = "POST" then doPOST path parsed rng
  else if method = "OPTIONS" then doOPTIONS path
  else
    ⟨501, [("Content-Type", "text/html;charset=utf-8"), ("Connection", "close")],
      .htmlBody ("Unsupported method " ++ method)⟩

/-- A classification rule: a predicate on the line and the interval drawn
from when the predicate is the first to match. -/
def specRules : List ((String → Bool) × (ℚ × ℚ)) :=
  [(isEmptyLine, (1/10, 3/10)),
   (isCommentLine, (2/10, 5/10)),
   (isImportLine, (7/10, 9/10)),
   (isDefLine, (6/10, 8/10))]

/-- First matching rule wins, checked top to bottom; when no rule matches
the line falls to the regular-code interval. -/
def firstMatch : List ((String → Bool) × (ℚ × ℚ)) → String → ℚ × ℚ
  | [], _ => (3/10, 7/10)
  | (p, iv) :: rest, line => if p line then iv else firstMatch rest line

/-- Modelled from the spec: classify a line using the first matching rule
in the fixed priority order empty, comment, import, definition, otherwise
regular code. -/
def classifySpec (line : String) : ℚ × ℚ :=
  firstMatch specRules line


/-- The rounded value is at most half a unit above the argument. -/
theorem roundHalfEven_le_add_half (q : ℚ) : (roundHalfEven q : ℚ) ≤ q + 1/2 := by
  have hfl : (⌊q⌋ : ℚ) ≤ q := Int.floor_le q
  have hfu : q < (⌊q⌋ : ℚ) + 1 := Int.lt_floor_add_one q
  unfold roundHalfEven
  split_ifs with h1 h2 h3 <;> push_cast <;> linarith

/-- The rounded value is at least half a unit below the argument. -/
theorem sub_half_le_roundHalfEven (q : ℚ) : q - 1/2 ≤ (roundHalfEven q : ℚ) := by
  have hfl : (⌊q⌋ : ℚ) ≤ q := Int.floor_le q
  have hfu : q < (⌊q⌋ : ℚ) + 1 := Int.lt_floor_add_one q
  unfold roundHalfEven
  split_ifs with h1 h2 h3 <;> push_cast <;> linarith

/-- Rounding a value of the half-open interval from a/1000 to b/1000 with
integer endpoints a and b lands in the closed interval with the same
endpoints. -/
theorem pyRound3_bounds (a b : ℤ) (x : ℚ)
    (hl : (a : ℚ)/1000 ≤ x) (hu : x < (b : ℚ)/1000) :
    (a : ℚ)/1000 ≤ pyRound3 x ∧ pyRound3 x ≤ (b : ℚ)/1000 := by
  have h1 : (roundHalfEven (x * 1000) : ℚ) ≤ x * 1000 + 1/2 :=
    roundHalfEven_le_add_half (x * 1000)
  have h2 : x * 1000 - 1/2 ≤ (roundHalfEven (x * 1000) : ℚ) :=
    sub_half_le_roundHalfEven (x * 1000)
  have hxl : (a : ℚ) ≤ x * 1000 := by linarith
  have hxu : x * 1000 < (b : ℚ) := by linarith
  have hka : (a : ℚ) - 1 < (roundHalfEven (x * 1000) : ℚ) := by linarith
  have hkb : (roundHalfEven (x * 1000) : ℚ) < (b : ℚ) + 1 := by linarith
  have ha : a ≤ roundHalfEven (x * 1000) := by
    have := Int.lt_iff_add_one_le.mp (show a - 1 < roundHalfEven (x * 1000) by
      exact_mod_cast hka)
    omega
  have hb : roundHalfEven (x * 1000) ≤ b := by
    have := Int.lt_iff_add_one_le.mp (show roundHalfEven (x * 1000) < b + 1 by
      exact_mod_cast hkb)
    omega
  unfold pyRound3
  constructor
  · have : (a : ℚ) ≤ (roundHalfEven (x * 1000) : ℚ) := by exact_mod_cast ha
    linarith
  · have : (roundHalfEven (x * 1000) : ℚ) ≤ (b : ℚ) := by exact_mod_cast hb
    linarith

/-- The uniform draw lies in the half-open interval from a to b when the
underlying draw of random.random lies in the half-open unit interval. -/
theorem pyUniform_bounds (a b r : ℚ) (hab : a < b) (h0 : 0 ≤ r) (h1 : r < 1) :
    a ≤ pyUniform a b r ∧ pyUniform a b r < b := by
  unfold pyUniform
  constructor
  · nlinarith
  · nlinarith

/-- The classification takes one of exactly five intervals. -/
theorem classify_cases (line : String) :
    classify line = (1/10, 3/10) ∨ classify line = (2/10, 5/10) ∨
    classify line = (7/10, 9/10) ∨ classify line = (6/10, 8/10) ∨
    classify line = (3/10, 7/10) := by
  unfold classify
  split_ifs <;> simp

/-- Collecting an array of strings succeeds with exactly those strings. -/
theorem collectLines_map_str (ls : List String) :
    collectLines (ls.map Json.str) = .ok ls := by
  induction ls with
  | nil => rfl
  | cons l rest ih => simp [collectLines, asLineString, ih]

/-- The loop emits one probability per line. -/
theorem scoreAll_length (ls : List String) (rng : ℕ → ℚ) :
    (scoreAll ls rng).length = ls.length := by
  induction ls generalizing rng with
  | nil => rfl
  | cons l rest ih => simp [scoreAll, ih]

/-- The i-th probability comes from the i-th line and the i-th draw. -/
theorem scoreAll_getD (ls : List String) (rng : ℕ → ℚ) (i : ℕ) (h : i < ls.length) :
    (scoreAll ls rng).getD i 0 = scoreLine (ls.getD i "") (rng i) := by
  induction ls generalizing rng i with
  | nil => simp at h
  | cons l rest ih =>
    cases i with
    | zero => rfl
    | succ j =>
      have hj : j < rest.length := by simpa using h
      simpa [scoreAll] using ih (fun k => rng (k + 1)) j hj

/-- An array holding a value that is not a string makes the collection
raise. -/
theorem collectLines_error_of_nonstring (items : List Json)
    (hbad : ∃ j ∈ items, ∀ s, j ≠ .str s) :
    ∃ m, collectLines items = .error m := by
  induction items with
  | nil => simp at hbad
  | cons j rest ih =>
    cases j with
    | str s =>
      obtain ⟨j, hj, hns⟩ := hbad
      rcases List.mem_cons.mp hj with h | h
      · exact absurd rfl (h ▸ hns s)
      · obtain ⟨m, hm⟩ := ih ⟨j, h, hns⟩
        exact ⟨m, by simp [collectLines, asLineString, hm]⟩
    | null => exact ⟨_, rfl⟩
    | bool b => exact ⟨_, rfl⟩
    | num q => exact ⟨_, rfl⟩
    | arr xs => exact ⟨_, rfl⟩
    | obj fs => exact ⟨_, rfl⟩

/-- C1: a valid request whose lines value is an array of strings gets a 200
response whose probabilities list has the same length as lines, the i-th
probability produced from the i-th line with the i-th draw. -/
theorem predict_length_and_order (fields : List (String × Json)) (ls : List String)
    (rng : ℕ → ℚ) (h : fields.lookup "lines" = some (.arr (ls.map Json.str))) :
    ∃ ps : List ℚ,
      doPOST "/predict" (some (.obj fields)) rng =
        ⟨200, ("Content-Type", "application/json") :: corsHeaders,
          .jsonBody (.obj [("probabilities", .arr (ps.map Json.num))])⟩ ∧
      ps.length = ls.length ∧
      ∀ i, i < ls.length → ps.getD i 0 = scoreLine (ls.getD i "") (rng i) := by
  refine ⟨scoreAll ls rng, ?_, scoreAll_length ls rng, fun i hi => scoreAll_getD ls rng i hi⟩
  simp [doPOST, processPredict, h, iterLines, collectLines_map_str]

/-- Witness for C1 at a concrete one-line request. -/
theorem predict_length_and_order_witness :
    ∃ ps : List ℚ,
      doPOST "/predict" (some (.obj [("lines", .arr [.str "x = 1"])])) (fun _ => 0) =
        ⟨200, ("Content-Type", "application/json") :: corsHeaders,
          .jsonBody (.obj [("probabilities", .arr (ps.map Json.num))])⟩ ∧
      ps.length = ["x = 1"].length ∧
      ∀ i, i < ["x = 1"].length → ps.getD i 0 = scoreLine (["x = 1"].getD i "") 0 :=
  predict_length_and_order [("lines", .arr [.str "x = 1"])] ["x = 1"] (fun _ => 0) rfl

/-- C2: classification follows the first matching rule in the fixed
priority order empty, comment, import, definition, regular code; in
particular a comment line that also mentions import is scored as a
comment. -/
theorem classify_priority_order :
    (∀ line, classify line = classifySpec line) ∧
    classify "# import os" = (2/10, 5/10) := by
  constructor
  · intro line
    rfl
  · have h1 : isEmptyLine "# import os" = false := by decide
    have h2 : isCommentLine "# import os" = true := by decide
    simp [classify, h1, h2]

/-- C3 counterexample: the empty line is classified into the interval from
0.1 to 0.3, the draw 9999/10000 is a value random.random can produce, and
the returned score is exactly 0.3: rounding reaches the upper endpoint, so
the returned value is not always below it. -/
theorem score_reaches_upper_endpoint :
    isEmptyLine "" = true ∧
    classify "" = (1/10, 3/10) ∧
    (0 : ℚ) ≤ 9999/10000 ∧ (9999 : ℚ)/10000 < 1 ∧
    scoreLine "" (9999/10000) = 3/10 := by
  have h1 : isEmptyLine "" = true := by decide
  have hcl : classify "" = (1/10, 3/10) := by simp [classify, h1]
  refine ⟨h1, hcl, by norm_num, by norm_num, ?_⟩
  have hr : roundHalfEven ((29998 : ℚ)/100000 * 1000) = 300 := by
    norm_num [roundHalfEven]
  have hs : scoreLine "" (9999/10000) = pyRound3 (29998/100000) := by
    unfold scoreLine
    rw [hcl]
    norm_num [pyUniform]
  rw [hs, pyRound3, hr]
  norm_num

/-- C3 amended: for every line and every draw in the half-open unit
interval, the returned score lies in the closed interval whose endpoints
are those of the classification of the line: the raw uniform draw stays
below the upper endpoint, but rounding to 3 decimals can return it. -/
theorem score_within_closed_interval (line : String) (r : ℚ)
    (h0 : 0 ≤ r) (h1 : r < 1) :
    (classify line).1 ≤ scoreLine line r ∧ scoreLine line r ≤ (classify line).2 := by
  have key : ∀ a b : ℤ, classify line = ((a : ℚ)/1000, (b : ℚ)/1000) → (a : ℚ) < b →
      (classify line).1 ≤ scoreLine line r ∧ scoreLine line r ≤ (classify line).2 := by
    intro a b hcl hab
    have hab10 : (a : ℚ)/1000 < (b : ℚ)/1000 := by linarith
    obtain ⟨hu1, hu2⟩ := pyUniform_bounds ((a : ℚ)/1000) ((b : ℚ)/1000) r hab10 h0 h1
    obtain ⟨hb1, hb2⟩ := pyRound3_bounds a b (pyUniform ((a : ℚ)/1000) ((b : ℚ)/1000) r) hu1 hu2
    rw [hcl]
    unfold scoreLine
    rw [hcl]
    exact ⟨hb1, hb2⟩
  rcases classify_cases line with h | h | h | h | h
  · exact key 100 300 (by rw [h]; norm_num) (by norm_num)
  · exact key 200 500 (by rw [h]; norm_num) (by norm_num)
  · exact key 700 900 (by rw [h]; norm_num) (by norm_num)
  · exact key 600 800 (by rw [h]; norm_num) (by norm_num)
  · exact key 300 700 (by rw [h]; norm_num) (by norm_num)

/-- Witness for the amended C3 at a concrete line and draw. -/
theorem score_within_closed_interval_witness :
    (0 : ℚ) ≤ 0 ∧ (0 : ℚ) < 1 ∧
    (classify "x = 1").1 ≤ scoreLine "x = 1" 0 ∧
    scoreLine "x = 1" 0 ≤ (classify "x = 1").2 :=
  ⟨le_refl 0, by norm_num,
    (score_within_closed_interval "x = 1" 0 (le_refl 0) (by norm_num)).1,
    (score_within_closed_interval "x = 1" 0 (le_refl 0) (by norm_num)).2⟩

/-- C4: every probability the handler computes for a successful response is
an integer multiple of 0.001. -/
theorem probabilities_are_thousandths (parsed : Option Json) (rng : ℕ → ℚ)
    (ps : List ℚ) (h : processPredict parsed rng = .ok ps) (p : ℚ) (hp : p ∈ ps) :
    ∃ k : ℤ, p = (k : ℚ)/1000 := by
  have hscore : ∀ ls : List String, ∀ rng : ℕ → ℚ, ∀ p : ℚ,
      p ∈ scoreAll ls rng → ∃ k : ℤ, p = (k : ℚ)/1000 := by
    intro ls
    induction ls with
    | nil => intro rng p hp; simp [scoreAll] at hp
    | cons l rest ih =>
      intro rng p hp
      rcases List.mem_cons.mp hp with h | h
      · exact ⟨roundHalfEven (pyUniform (classify l).1 (classify l).2 (rng 0) * 1000), h⟩
      · exact ih (fun i => rng (i + 1)) p h
  cases parsed with
  | none => simp [processPredict] at h
  | some j =>
    cases j with
    | obj fields =>
      unfold processPredict at h
      split at h
      · exact Except.noConfusion h
      · split at h
        · exact Except.noConfusion h
        · rename_i ls heq2
          cases h
          exact hscore ls rng p hp
      · exact Except.noConfusion h
    | null => simp [processPredict] at h
    | bool b => simp [processPredict] at h
    | num q => simp [processPredict] at h
    | str s => simp [processPredict] at h
    | arr xs => simp [processPredict] at h

/-- Witness for C4 at a concrete request and draw. -/
theorem probabilities_are_thousandths_witness :
    ∃ k : ℤ, scoreLine "x = 1" ((fun _ => (1 : ℚ)/2) 0) = (k : ℚ)/1000 :=
  probabilities_are_thousandths (some (.obj [("lines", .arr [.str "x = 1"])]))
    (fun _ => (1 : ℚ)/2) (scoreAll ["x = 1"] (fun _ => (1 : ℚ)/2)) rfl
    (scoreLine "x = 1" ((fun _ => (1 : ℚ)/2) 0)) (List.mem_singleton.mpr rfl)

/-- C5: a request body that is not valid JSON, or any body on which the
try block raises, gets a 500 response whose JSON body has the key error
bound to the exception message; the exception is caught, not propagated. -/
theorem malformed_request_gives_500 (parsed : Option Json) (rng : ℕ → ℚ)
    (h : parsed = none ∨ ∃ m, processPredict parsed rng = .error m) :
    ∃ m, doPOST "/predict" parsed rng =
      ⟨500, [("Content-Type", "application/json")],
        .jsonBody (.obj [("error", .str m)])⟩ := by
  have herr : ∃ m, processPredict parsed rng = .error m := by
    rcases h with h | h
    · exact ⟨_, by rw [h]; rfl⟩
    · exact h
  obtain ⟨m, hm⟩ := herr
  exact ⟨m, by simp [doPOST, hm]⟩

/-- Witness for C5 at an unparseable body. -/
theorem malformed_request_gives_500_witness :
    ∃ m, doPOST "/predict" none (fun _ => 0) =
      ⟨500, [("Content-Type", "application/json")],
        .jsonBody (.obj [("error", .str m)])⟩ :=
  malformed_request_gives_500 none (fun _ => 0) (Or.inl rfl)

/-- C6 counterexample: a GET request to /predict is answered by the base
class with status 501 and an HTML error body, not with 404 and an empty
body. -/
theorem get_predict_is_501_not_404 :
    (handleRequest "GET" "/predict" none (fun _ => 0)).status = 501 ∧
    (handleRequest "GET" "/predict" none (fun _ => 0)).status ≠ 404 ∧
    (handleRequest "GET" "/predict" none (fun _ => 0)).body ≠ .empty := by
  refine ⟨rfl, by simp [handleRequest], by simp [handleRequest]⟩

/-- C6 amended: a POST to any path other than /predict is answered 404 with
no headers and an empty body; a request whose method is neither POST nor
OPTIONS (for example GET /predict) is answered 501 by the base class with a
non-empty error page, not 404. -/
theorem unknown_route_dispatch :
    (∀ path parsed rng, path ≠ "/predict" →
      handleRequest "POST" path parsed rng = ⟨404, [], .empty⟩) ∧
    (∀ method path parsed rng, method ≠ "POST" → method ≠ "OPTIONS" →
      (handleRequest method path parsed rng).status = 501 ∧
      (handleRequest method path parsed rng).body ≠ .empty) := by
  constructor
  · intro path parsed rng hp
    simp [handleRequest, doPOST, hp]
  · intro method path parsed rng h1 h2
    simp [handleRequest, h1, h2]

/-- Witness for the amended C6 at a concrete wrong path and wrong method. -/
theorem unknown_route_dispatch_witness :
    handleRequest "POST" "/other" none (fun _ => 0) = ⟨404, [], .empty⟩ ∧
    (handleRequest "GET" "/" none (fun _ => 0)).status = 501 ∧
    (handleRequest "GET" "/" none (fun _ => 0)).body ≠ .empty :=
  ⟨unknown_route_dispatch.1 "/other" none (fun _ => 0) (by simp),
    (unknown_route_dispatch.2 "GET" "/" none (fun _ => 0) (by simp) (by simp)).1,
    (unknown_route_dispatch.2 "GET" "/" none (fun _ => 0) (by simp) (by simp)).2⟩

/-- C7: every 200 response carries the three CORS headers, and a 200
response to an OPTIONS request additionally has an empty body. -/
theorem cors_headers_on_200 (method path : String) (parsed : Option Json)
    (rng : ℕ → ℚ) (h : (handleRequest method path parsed rng).status = 200) :
    (∀ hd ∈ corsHeaders, hd ∈ (handleRequest method path parsed rng).headers) ∧
    (method = "OPTIONS" → (handleRequest method path parsed rng).body = .empty) := by
  by_cases hm : method = "POST"
  · subst hm
    constructor
    · intro hd hhd
      rw [handleRequest] at h ⊢
      simp only [if_pos rfl] at h ⊢
      rw [doPOST] at h ⊢
      by_cases hp : path = "/predict"
      · simp only [if_pos hp] at h ⊢
        cases hpr : processPredict parsed rng with
        | ok ps => simp [hpr]; exact Or.inr hhd
        | error m => rw [hpr] at h; simp at h
      · simp only [if_neg hp] at h
        simp at h
    · intro hopt
      exact absurd hopt (by simp)
  · by_cases ho : method = "OPTIONS"
    · subst ho
      constructor
      · intro hd hhd
        simpa [handleRequest, doOPTIONS] using hhd
      · intro _
        simp [handleRequest, doOPTIONS]
    · rw [handleRequest, if_neg hm, if_neg ho] at h
      simp at h

/-- Witness for C7 at a concrete OPTIONS request. -/
theorem cors_headers_on_200_witness :
    (∀ hd ∈ corsHeaders,
      hd ∈ (handleRequest "OPTIONS" "/predict" none (fun _ => 0)).headers) ∧
    ("OPTIONS" = "OPTIONS" →
      (handleRequest "OPTIONS" "/predict" none (fun _ => 0)).body = .empty) :=
  cors_headers_on_200 "OPTIONS" "/predict" none (fun _ => 0) rfl

/-- C8: the success and error responses are functions of the lines value
and the random draws alone: two parsed bodies binding lines to the same
value produce identical responses under the same draws, whatever their
other fields. -/
theorem response_depends_only_on_lines (f1 f2 : List (String × Json)) (rng : ℕ → ℚ)
    (h : f1.lookup "lines" = f2.lookup "lines") :
    doPOST "/predict" (some (.obj f1)) rng = doPOST "/predict" (some (.obj f2)) rng := by
  have e : ∀ f : List (String × Json), processPredict (some (.obj f)) rng =
      match iterLines ((f.lookup "lines").getD (.arr [])) with
      | .error m => .error m
      | .ok ls => .ok (scoreAll ls rng) := fun f => rfl
  unfold doPOST
  rw [e f1, e f2, h]

/-- Witness for C8 at two concrete bodies differing in an extra field. -/
theorem response_depends_only_on_lines_witness :
    doPOST "/predict" (some (.obj [("lines", .arr [.str "a"]), ("other", .null)]))
      (fun _ => 0) =
    doPOST "/predict" (some (.obj [("lines", .arr [.str "a"])])) (fun _ => 0) :=
  response_depends_only_on_lines
    [("lines", .arr [.str "a"]), ("other", .null)]
    [("lines", .arr [.str "a"])] (fun _ => 0) rfl

/-- C9: a valid JSON object body with no key lines is not an error: the get
default makes lines the empty list and the response is 200 with an empty
probabilities list. -/
theorem missing_lines_defaults_to_empty (fields : List (String × Json)) (rng : ℕ → ℚ)
    (h : fields.lookup "lines" = none) :
    doPOST "/predict" (some (.obj fields)) rng =
      ⟨200, ("Content-Type", "application/json") :: corsHeaders,
        .jsonBody (.obj [("probabilities", .arr [])])⟩ := by
  simp [doPOST, processPredict, h, iterLines, collectLines, scoreAll]

/-- Witness for C9 at a concrete body without the key lines. -/
theorem missing_lines_defaults_to_empty_witness :
    doPOST "/predict" (some (.obj [("text", .str "hi")])) (fun _ => 0) =
      ⟨200, ("Content-Type", "application/json") :: corsHeaders,
        .jsonBody (.obj [("probabilities", .arr [])])⟩ :=
  missing_lines_defaults_to_empty [("text", .str "hi")] (fun _ => 0) rfl

/-- C10: a lines array holding a value that is not a string makes the loop
raise on that element, and the caught exception yields a 500 response with
the key error; no probabilities response is sent. -/
theorem nonstring_line_gives_500 (fields : List (String × Json)) (items : List Json)
    (rng : ℕ → ℚ) (h : fields.lookup "lines" = some (.arr items))
    (hbad : ∃ j ∈ items, ∀ s, j ≠ .str s) :
    ∃ m, doPOST "/predict" (some (.obj fields)) rng =
      ⟨500, [("Content-Type", "application/json")],
        .jsonBody (.obj [("error", .str m)])⟩ := by
  obtain ⟨m, hm⟩ := collectLines_error_of_nonstring items hbad
  refine ⟨m, ?_⟩
  simp [doPOST, processPredict, h, iterLines, hm]

/-- Witness for C10 at a concrete body whose lines array holds null. -/
theorem nonstring_line_gives_500_witness :
    ∃ m, doPOST "/predict" (some (.obj [("lines", .arr [.null])])) (fun _ => 0) =
      ⟨500, [("Content-Type", "application/json")],
        .jsonBody (.obj [("error", .str m)])⟩ :=
  nonstring_line_gives_500 [("lines", .arr [.null])] [.null] (fun _ => 0) rfl
    ⟨.null, List.mem_singleton.mpr rfl, fun _ hs => Json.noConfusion hs⟩
